import Mathlib

/-!
A shallow embedding of `torch/_dynamo/external_utils.py`.

The module's core is `wrap_inline` / `create_new_fn`: given a callable,
build a behaviorally identical wrapper function whose code object has a
fresh identity, memoized in a thread-local cache keyed by the original
callable's code-object identity.

Modelling decisions (each noted again at the relevant definition):
* Python values are the inductive `PyVal`; Python exceptions are `PyErr`.
  A call takes positional args and keyword args (`CallArgs`) and returns
  `Except PyErr PyVal`.
* Object/code identities (`id(obj)`, the identity of a code object) are
  natural numbers.  Fresh identities are drawn from an allocation counter
  carried in `DynamoState`; the intended invariant is that every identity
  already in play is below the counter.
* `transform_code_object` lives in `torch/_dynamo/bytecode_transformation.py`,
  outside the embedded module; per its interface contract it returns a code
  object with a fresh identity and identical behavior, which is how it is
  modelled here.
* The thread-local `_TLS` is modelled per-thread: `cached_wrappers` is an
  `Option` that is `none` in a thread where the attribute was never set
  (module import sets it only in the importing thread), mirroring that
  reading a missing attribute of a `threading.local` raises `AttributeError`.
-/

namespace ExternalUtils

/-- Python runtime values, as far as this module's helpers inspect them.
`none` is Python's `None`; `tuple` and `list` are kept distinct because
`call_backward` tests `type(grads) is not tuple`.  `obj n` is an opaque
Python object with identity `n` (e.g. a module passed to a hook). -/
inductive PyVal where
  | none
  | bool (b : Bool)
  | int (n : Int)
  | str (s : String)
  | tuple (vs : List PyVal)
  | list (vs : List PyVal)
  | obj (n : Nat)

/-- Python's `x is None` test: true exactly on the `None` value. -/
def PyVal.isNone : PyVal → Bool
  | .none => true
  | _ => false

theorem PyVal.isNone_iff (v : PyVal) : v.isNone = true ↔ v = PyVal.none := by
  cases v <;> simp [PyVal.isNone]

/-- Python exceptions raised by the embedded code paths.
`attributeError a` models `AttributeError` for attribute `a`;
`indexError` models `IndexError` from `args[0]` on an empty tuple;
`typeError` models `TypeError` (e.g. calling a non-callable). -/
inductive PyErr where
  | attributeError (attr : String)
  | typeError (msg : String)
  | indexError
deriving DecidableEq

/-- The arguments of a Python call: `*args` and `**kwargs`. -/
structure CallArgs where
  args : List PyVal
  kwargs : List (String × PyVal)

/-- The outcome of a Python call: a value, or a raised exception. -/
abbrev PyResult := Except PyErr PyVal

/-- A Python function object: its own identity (`id(f)`), the identity of
its `__code__`, its call behavior (closure, globals and defaults are all
captured inside `run`), its `__dict__`, and its `__name__`. -/
structure PyFunction where
  objId : Nat
  code : Nat
  run : CallArgs → PyResult
  dict : List (String × PyVal)
  name : String

/-- A `torch.nn.Module` instance as `wrap_inline` sees it: `forwardCode`
is the identity of `self.forward.__code__`; `run` is the behavior of
calling the module. -/
structure PyModule where
  objId : Nat
  forwardCode : Nat
  run : CallArgs → PyResult
  dict : List (String × PyVal)
  name : String

/-- The possible inputs of `wrap_inline`: a plain function (has
`__code__`), an `nn.Module` (keyed by `forward.__code__`), or any other
object, which has neither and makes `fn.__code__` raise
`AttributeError`. -/
inductive WrapInput where
  | func (f : PyFunction)
  | module (m : PyModule)
  | plain (objId : Nat)

/-- The cache key computed on lines 65-68 of the source:
`fn.forward.__code__` for an `nn.Module`, else `fn.__code__`; `none` when
the attribute access raises. -/
def key : WrapInput → Option Nat
  | .module m => some m.forwardCode
  | .func f => some f.code
  | .plain _ => Option.none

/-- The behavior of `fn(*args, **kwargs)` for a wrap input.  Calling an
object that is neither a function nor a module raises `TypeError` (only
reachable at wrapper call time, never on the wrap path, which raises
`AttributeError` first). -/
def callOf : WrapInput → CallArgs → PyResult
  | .func f => f.run
  | .module m => m.run
  | .plain _ => fun _ => .error (.typeError "object is not callable")

/-- `fn.__dict__` of a wrap input (what `functools.wraps` copies). -/
def dictOf : WrapInput → List (String × PyVal)
  | .func f => f.dict
  | .module m => m.dict
  | .plain _ => []

/-- `fn.__name__` of a wrap input (what `functools.wraps` copies). -/
def nameOf : WrapInput → String
  | .func f => f.name
  | .module m => m.name
  | .plain _ => "object"

/-- The per-thread state touched by `wrap_inline`:
`cached_wrappers` is `_TLS.cached_wrappers` for the current thread
(`Option.none` when the attribute was never set in this thread — the
module-level `_TLS.cached_wrappers = {}` runs only in the importing
thread); the dict is an association list from code identity to the cached
wrapper, newest binding first.  `nextId` is the fresh-identity allocator
for newly created objects and code objects. -/
structure DynamoState where
  cached_wrappers : Option (List (Nat × PyFunction))
  nextId : Nat

/-- Dict lookup `cached_wrappers.get(key)` on the association list. -/
def findWrapper (k : Nat) : List (Nat × PyFunction) → Option PyFunction
  | [] => Option.none
  | (k2, w) :: rest => if k2 = k then some w else findWrapper k rest

/-- Model of `create_new_fn` (source lines 37-53) applied to a function:
`transform_code_object(fn.__code__, nothing)` returns a code object with a
fresh identity and identical behavior (contract of the external rewriter,
`torch/_dynamo/bytecode_transformation.py`); a new `FunctionType` is then
assembled from that code with `fn`'s globals, name, defaults and closure,
so its behavior is `fn.run`.  `alloc` is the fresh-identity allocator;
the new code takes identity `alloc` and the new function object identity
`alloc + 1`.  The `functools.lru_cache` on `create_new_fn` is keyed on
the function object itself; `wrap_inline` always passes a freshly created
closure, so that cache never hits on the modelled path and is omitted. -/
def create_new_fn (fn : PyFunction) (alloc : Nat) : PyFunction × Nat :=
  ({ objId := alloc + 1
     code := alloc
     run := fn.run
     dict := fn.dict
     name := fn.name }, alloc + 2)

/-- `functools.wraps(fn)(new_fn)` (source line 80): copies `fn.__dict__`
and `fn.__name__` onto `new_fn` and returns `new_fn` (same object, so
same identity and same code). -/
def wraps (fn : WrapInput) (new_fn : PyFunction) : PyFunction :=
  { new_fn with dict := dictOf fn, name := nameOf fn }

/-- Model of `wrap_inline` (source lines 56-84), acting on the calling
thread's `DynamoState`.  Steps, in source order:
1. read `_TLS.cached_wrappers` (line 63) — raises `AttributeError` in a
   thread where the attribute was never set;
2. compute the cache key (lines 65-68) — `fn.forward.__code__` for an
   `nn.Module`, else `fn.__code__`, raising `AttributeError` for an input
   with neither;
3. `cached_wrappers.get(key)` (line 70) — on a hit return the cached
   wrapper unchanged (wrappers are function objects, hence truthy, so the
   walrus-`if` is an `is not None` test);
4. on a miss, build the forwarding closure `inner` (fresh object and code
   identities), rewrite it with `create_new_fn`, apply `functools.wraps`,
   store the result under the key, and return it. -/
def wrap_inline (fn : WrapInput) (st : DynamoState) :
    Except PyErr PyFunction × DynamoState :=
  match st.cached_wrappers with
  | Option.none => (.error (.attributeError "cached_wrappers"), st)
  | some cached_wrappers =>
    match key fn with
    | Option.none => (.error (.attributeError "__code__"), st)
    | some k =>
      match findWrapper k cached_wrappers with
      | some cached_wrapper => (.ok cached_wrapper, st)
      | Option.none =>
        let inner : PyFunction :=
          { objId := st.nextId
            code := st.nextId + 1
            run := fun a => callOf fn a
            dict := []
            name := "inner" }
        let created := create_new_fn inner (st.nextId + 2)
        let new_fn := wraps fn created.1
        (.ok new_fn,
         { cached_wrappers := some ((k, new_fn) :: cached_wrappers)
           nextId := created.2 })

/-- Model of `call_hook` (source lines 87-94): call the hook with the
given positional arguments; if the result `is None`, return `args[0]`
(which raises `IndexError` when `args` is the empty tuple), otherwise
return the hook's result.  Hooks are modelled as total functions on the
positional-argument list (no hook in any claim raises). -/
def call_hook (hook : List PyVal → PyVal) (args : List PyVal) :
    Except PyErr PyVal :=
  let result := hook args
  if result.isNone then
    match args with
    | [] => .error .indexError
    | a :: _ => .ok a
  else .ok result

/-- Model of `FakeContext` (source lines 115-119): a context object whose
only payload is the previously materialized `saved_tensors` value. -/
structure FakeContext where
  saved_tensors : PyVal

/-- Model of `call_backward` (source lines 122-129): call the backward
callback with a `FakeContext` carrying `saved_tensors` and the remaining
arguments; then, because `type(grads) is not tuple` is an exact type
test, wrap the result in a one-element tuple unless it is a tuple —
every non-tuple value, a Python `list` included, gets wrapped. -/
def call_backward (backward_fn : FakeContext → List PyVal → PyVal)
    (saved_tensors : PyVal) (args : List PyVal) : PyVal :=
  let grads := backward_fn ⟨saved_tensors⟩ args
  match grads with
  | .tuple vs => .tuple vs
  | g => .tuple [g]

/-- A hook stored on a backward-state object: invoked as
`hook(module, result, *args)`. -/
abbrev ModuleHook := PyVal → PyVal → List PyVal → PyVal

/-- An attribute value of a backward-state object, as far as
`call_module_hooks_from_backward_state` inspects it: either a plain
value (e.g. the module object) or a list of hooks.  (In Python the two
share one attribute namespace; the embedding types them apart, and a
hook-list found where a plain value is expected — or vice versa — is
outside the modelled corner, see `call_module_hooks_from_backward_state`.) -/
inductive BWAttr where
  | val (v : PyVal)
  | hooks (hs : List ModuleHook)

/-- A backward-state object: an attribute namespace, looked up by
`getattr`. -/
abbrev BackwardState := List (String × BWAttr)

/-- `getattr(bw_state, name)`: first binding wins; a missing attribute
raises `AttributeError` (the spec's implicit HookContractViolation). -/
def getattrBW : BackwardState → String → Except PyErr BWAttr
  | [], name => .error (.attributeError name)
  | (a, v) :: rest, name =>
    if a = name then .ok v else getattrBW rest name

/-- One iteration of the hook loop (source lines 145-148): call the hook
with `(module, result, *args)`; if the returned value `is not None` it
replaces the threaded result, otherwise the previous result is kept. -/
def moduleHookStep (module : PyVal) (args : List PyVal) (result : PyVal)
    (hook : ModuleHook) : PyVal :=
  let new_result := hook module result args
  if new_result.isNone then result else new_result

/-- Model of `call_module_hooks_from_backward_state` (source lines
140-149): resolve the module and the hook list on the backward state by
attribute name, then fold the hook loop over the list in order, starting
from the incoming `result`, and return the final threaded result.  The
first Python parameter `_` is ignored by the source and modelled as
`ignored`.  A non-list hooks attribute raises `TypeError` when the `for`
statement iterates it; a hook-list-valued module attribute is outside
the typed embedding and mapped to `TypeError` as well. -/
def call_module_hooks_from_backward_state (_ignored : PyVal)
    (result : PyVal) (args : List PyVal) (bw_state : BackwardState)
    (hooks_name : String) (module_name : String) : Except PyErr PyVal :=
  match getattrBW bw_state module_name with
  | .error e => .error e
  | .ok (.hooks _) => .error (.typeError "unsupported module attribute")
  | .ok (.val module) =>
    match getattrBW bw_state hooks_name with
    | .error e => .error e
    | .ok (.val _) => .error (.typeError "object is not iterable")
    | .ok (.hooks hooks) =>
      .ok (hooks.foldl (moduleHookStep module args) result)

/-! ### Characterization lemmas for `wrap_inline` -/

/-- The wrapper that the miss path of `wrap_inline` constructs when the
allocation counter stands at `alloc`: the forwarding closure `inner`
takes identities `alloc` (object) and `alloc + 1` (code), the rewritten
code takes identity `alloc + 2`, the new function object `alloc + 3`;
`functools.wraps` copies the original's `__dict__` and `__name__`, and
the wrapper's behavior is exactly `fn(*args, **kwargs)`. -/
def mkWrapper (fn : WrapInput) (alloc : Nat) : PyFunction :=
  { objId := alloc + 3
    code := alloc + 2
    run := fun a => callOf fn a
    dict := dictOf fn
    name := nameOf fn }

theorem wrap_inline_tls_missing (fn : WrapInput) (st : DynamoState)
    (hc : st.cached_wrappers = Option.none) :
    wrap_inline fn st = (.error (.attributeError "cached_wrappers"), st) := by
  simp only [wrap_inline, hc]

theorem wrap_inline_no_code (fn : WrapInput) (st : DynamoState)
    (cache : List (Nat × PyFunction))
    (hc : st.cached_wrappers = some cache) (hk : key fn = Option.none) :
    wrap_inline fn st = (.error (.attributeError "__code__"), st) := by
  simp only [wrap_inline, hc, hk]

theorem wrap_inline_hit (fn : WrapInput) (st : DynamoState)
    (cache : List (Nat × PyFunction)) (k : Nat) (w : PyFunction)
    (hc : st.cached_wrappers = some cache) (hk : key fn = some k)
    (hl : findWrapper k cache = some w) :
    wrap_inline fn st = (.ok w, st) := by
  simp only [wrap_inline, hc, hk, hl]

theorem wrap_inline_miss (fn : WrapInput) (st : DynamoState)
    (cache : List (Nat × PyFunction)) (k : Nat)
    (hc : st.cached_wrappers = some cache) (hk : key fn = some k)
    (hl : findWrapper k cache = Option.none) :
    wrap_inline fn st =
      (.ok (mkWrapper fn st.nextId),
       { cached_wrappers := some ((k, mkWrapper fn st.nextId) :: cache)
         nextId := st.nextId + 4 }) := by
  simp only [wrap_inline, hc, hk, hl, mkWrapper, wraps, create_new_fn]

/-- Inversion: a successful `wrap_inline` call came either from a cache
hit (state unchanged) or from the construction path (fresh wrapper
cached, allocation counter advanced). -/
theorem wrap_inline_ok_inv {fn : WrapInput} {st st2 : DynamoState}
    {w : PyFunction} (h : wrap_inline fn st = (.ok w, st2)) :
    ∃ cache k, st.cached_wrappers = some cache ∧ key fn = some k ∧
      ((findWrapper k cache = some w ∧ st2 = st) ∨
       (findWrapper k cache = Option.none ∧ w = mkWrapper fn st.nextId ∧
        st2 = { cached_wrappers := some ((k, w) :: cache)
                nextId := st.nextId + 4 })) := by
  rcases hc : st.cached_wrappers with _ | cache
  · rw [wrap_inline_tls_missing fn st hc] at h
    exact absurd (congrArg Prod.fst h) (by simp)
  rcases hk : key fn with _ | k
  · rw [wrap_inline_no_code fn st cache hc hk] at h
    exact absurd (congrArg Prod.fst h) (by simp)
  refine ⟨cache, k, rfl, rfl, ?_⟩
  rcases hl : findWrapper k cache with _ | w0
  · rw [wrap_inline_miss fn st cache k hc hk hl] at h
    rw [Prod.mk.injEq] at h
    obtain ⟨h1, h2⟩ := h
    have hw := Except.ok.inj h1
    exact Or.inr ⟨rfl, hw.symm, by rw [← h2, hw]⟩
  · rw [wrap_inline_hit fn st cache k w0 hc hk hl] at h
    rw [Prod.mk.injEq] at h
    obtain ⟨h1, h2⟩ := h
    have hw := Except.ok.inj h1
    exact Or.inl ⟨by rw [hw], h2.symm⟩

/-- After a successful wrap, wrapping any input with the same cache key
from the resulting state hits the cache and returns the very same
wrapper object, leaving the state untouched. -/
theorem wrap_inline_rehit (f g : WrapInput) (st st2 : DynamoState)
    (w : PyFunction) (hfg : key g = key f)
    (h : wrap_inline f st = (.ok w, st2)) :
    wrap_inline g st2 = (.ok w, st2) := by
  obtain ⟨cache, k, hc, hk, hcase⟩ := wrap_inline_ok_inv h
  rcases hcase with ⟨hl, heq⟩ | ⟨hl, hw, heq⟩
  · subst heq
    exact wrap_inline_hit g _ cache k w hc (hfg.trans hk) hl
  · subst heq
    exact wrap_inline_hit g _ ((k, w) :: cache) k w rfl (hfg.trans hk)
      (by simp [findWrapper])

/-! ### Sample inputs used by witnesses and counterexamples -/

/-- A closure whose code object has identity 5 and which returns `1`. -/
def cexF1 : WrapInput :=
  .func { objId := 1, code := 5, run := fun _ => .ok (.int 1)
          dict := [], name := "f1" }

/-- A second closure sharing code identity 5 but returning `2` (two
Python closures produced by the same `def` share one code object while
closing over different values). -/
def cexF2 : WrapInput :=
  .func { objId := 2, code := 5, run := fun _ => .ok (.int 2)
          dict := [], name := "f2" }

/-- A thread state with an initialized empty cache. -/
def cexSt : DynamoState := { cached_wrappers := some [], nextId := 10 }

/-- A sample plain function. -/
def sampleFn : WrapInput :=
  .func { objId := 1, code := 5, run := fun _ => .ok PyVal.none
          dict := [], name := "f" }

/-- The state after wrapping `sampleFn` from an empty cache at counter 10. -/
def sampleSt2 : DynamoState :=
  { cached_wrappers := some [(5, mkWrapper sampleFn 10)], nextId := 14 }

/-- Two `nn.Module` instances of one class: same `forward.__code__`
(identity 9), different parameters, hence different behavior. -/
def sampleModA : WrapInput :=
  .module { objId := 30, forwardCode := 9, run := fun _ => .ok (.int 7)
            dict := [], name := "ModA" }

/-- See `sampleModA`. -/
def sampleModB : WrapInput :=
  .module { objId := 31, forwardCode := 9, run := fun _ => .ok (.int 8)
            dict := [], name := "ModB" }

/-- The state after wrapping `sampleModA` from an empty cache at counter 20. -/
def sampleModSt2 : DynamoState :=
  { cached_wrappers := some [(9, mkWrapper sampleModA 20)], nextId := 24 }

/-- A sample function with an attribute in its `__dict__`. -/
def eqvFn : WrapInput :=
  .func { objId := 21, code := 7, run := fun a => .ok (.tuple a.args)
          dict := [("attr", .int 3)], name := "g" }

/-- The state after wrapping `eqvFn` from an empty cache at counter 50. -/
def eqvSt2 : DynamoState :=
  { cached_wrappers := some [(7, mkWrapper eqvFn 50)], nextId := 54 }

/-- A sample function with code identity 3. -/
def dF : WrapInput :=
  .func { objId := 1, code := 3, run := fun _ => .ok PyVal.none
          dict := [], name := "dF" }

/-- A sample function with code identity 4. -/
def dG : WrapInput :=
  .func { objId := 2, code := 4, run := fun _ => .ok PyVal.none
          dict := [], name := "dG" }

/-! ### The claims -/

/-- Claim C1, counterexample: behavioral equivalence of the wrapper does
not hold for every callable.  `cexF1` and `cexF2` share code identity 5
but return `1` and `2` respectively.  After `wrap_inline cexF1` fills
the cache, `wrap_inline cexF2` returns the cached wrapper, which still
calls `cexF1`: invoking it yields `1`, while invoking `cexF2` itself
yields `2`. -/
theorem wrap_inline_not_always_equivalent :
    callOf cexF2 ⟨[], []⟩ = .ok (.int 2) ∧
    (wrap_inline cexF2 (wrap_inline cexF1 cexSt).2).1.map
        (fun w => w.run ⟨[], []⟩) = .ok (.ok (.int 1)) ∧
    (Except.ok (Except.ok (PyVal.int 1)) :
        Except PyErr PyResult) ≠ .ok (.ok (.int 2)) := by
  refine ⟨rfl, rfl, fun hcontra => ?_⟩
  simp at hcontra

/-- Claim C1 (amended): when `wrap_inline fn` misses the cache, the
wrapper it constructs and returns is behaviorally equivalent to `fn`:
invoking it with any arguments produces exactly `fn`'s result on those
arguments — the same value, or a raised error of the same kind and
payload, both captured by the `PyResult` equality (with the external
code rewriter axiomatized as semantics-preserving).  On a cache hit the
returned wrapper instead replays the callable the cached entry was built
for, which shares `fn`'s code identity but need not share its
behavior. -/
theorem wrap_inline_behavioral_equivalence (fn : WrapInput)
    (st st2 : DynamoState) (cache : List (Nat × PyFunction)) (k : Nat)
    (w : PyFunction)
    (hc : st.cached_wrappers = some cache) (hk : key fn = some k)
    (hmiss : findWrapper k cache = Option.none)
    (h : wrap_inline fn st = (.ok w, st2)) :
    ∀ a : CallArgs, w.run a = callOf fn a := by
  rw [wrap_inline_miss fn st cache k hc hk hmiss] at h
  rw [Prod.mk.injEq] at h
  have hw := Except.ok.inj h.1
  subst hw
  intro a
  rfl

/-- Witness for C1's amended theorem: wrapping `eqvFn` from an empty
cache and calling the wrapper on `([9], {})` returns exactly what
`eqvFn` returns there. -/
theorem wrap_inline_behavioral_equivalence_witness :
    (mkWrapper eqvFn 50).run ⟨[.int 9], []⟩ = callOf eqvFn ⟨[.int 9], []⟩ :=
  wrap_inline_behavioral_equivalence eqvFn
    { cached_wrappers := some [], nextId := 50 } eqvSt2 [] 7
    (mkWrapper eqvFn 50) rfl rfl rfl rfl ⟨[.int 9], []⟩

/-- Claim C2: idempotent wrapping.  If a `wrap_inline` call in some
thread returned wrapper `w` leaving state `st2`, then calling
`wrap_inline` again on the same callable in the same thread returns the
very same wrapper object `w` and leaves the state — including the
allocation counter — untouched, so no second wrapper is ever constructed
for the same (thread, code-identity) pair. -/
theorem wrap_inline_idempotent (fn : WrapInput) (st st2 : DynamoState)
    (w : PyFunction) (h : wrap_inline fn st = (.ok w, st2)) :
    wrap_inline fn st2 = (.ok w, st2) :=
  wrap_inline_rehit fn fn st st2 w rfl h

/-- Witness for C2: rewrapping `sampleFn` right after it was first
wrapped returns the cached wrapper unchanged. -/
theorem wrap_inline_idempotent_witness :
    wrap_inline sampleFn sampleSt2 = (.ok (mkWrapper sampleFn 10), sampleSt2) :=
  wrap_inline_idempotent sampleFn
    { cached_wrappers := some [], nextId := 10 } sampleSt2
    (mkWrapper sampleFn 10) rfl

/-- Claim C3, code-bug exhibit: the module-level
`_TLS.cached_wrappers = {}` initializes the cache only in the thread
that imports the module.  In any thread where the attribute was never
set, the very first `wrap_inline` call — for every input — raises
`AttributeError` at the `_TLS.cached_wrappers` read instead of lazily
starting from an empty cache. -/
theorem wrap_inline_fresh_thread_attribute_error (fn : WrapInput) (n : Nat) :
    wrap_inline fn { cached_wrappers := Option.none, nextId := n } =
      (.error (.attributeError "cached_wrappers"),
       { cached_wrappers := Option.none, nextId := n }) :=
  wrap_inline_tls_missing fn _ rfl

/-- Claim C4: identity distinctness.  Under the allocation invariant
(every code identity in play is below the counter), a freshly
constructed wrapper's code identity differs from the wrapped callable's
code identity, and wrappers constructed for two callables with distinct
code identities have distinct code identities themselves (the external
rewriter's fresh-identity guarantee is the allocation step). -/
theorem wrap_inline_identity_distinct (f g : WrapInput)
    (st st1 st2 : DynamoState) (cache : List (Nat × PyFunction))
    (kf kg : Nat) (wf wg : PyFunction)
    (hc : st.cached_wrappers = some cache)
    (hkf : key f = some kf) (hkg : key g = some kg) (hne : kf ≠ kg)
    (hmf : findWrapper kf cache = Option.none)
    (hmg : findWrapper kg cache = Option.none)
    (hbf : kf < st.nextId) (hbg : kg < st.nextId)
    (h1 : wrap_inline f st = (.ok wf, st1))
    (h2 : wrap_inline g st1 = (.ok wg, st2)) :
    wf.code ≠ kf ∧ wg.code ≠ kg ∧ wf.code ≠ wg.code := by
  rw [wrap_inline_miss f st cache kf hc hkf hmf] at h1
  rw [Prod.mk.injEq] at h1
  obtain ⟨hwf, hst1⟩ := h1
  have hwf2 := Except.ok.inj hwf
  subst hwf2
  subst hst1
  have hmg1 : findWrapper kg ((kf, mkWrapper f st.nextId) :: cache) =
      Option.none := by
    simp only [findWrapper, hmg, if_neg hne]
  rw [wrap_inline_miss g _ _ kg rfl hkg hmg1] at h2
  rw [Prod.mk.injEq] at h2
  have hwg2 := Except.ok.inj h2.1
  subst hwg2
  refine ⟨?_, ?_, ?_⟩ <;> simp only [mkWrapper] <;> omega

/-- Witness for C4: wrapping `dF` (code 3) then `dG` (code 4) from an
empty cache at counter 10 yields wrapper code identities 12 and 16. -/
theorem wrap_inline_identity_distinct_witness :
    (mkWrapper dF 10).code ≠ 3 ∧ (mkWrapper dG 14).code ≠ 4 ∧
      (mkWrapper dF 10).code ≠ (mkWrapper dG 14).code :=
  wrap_inline_identity_distinct dF dG
    { cached_wrappers := some [], nextId := 10 }
    { cached_wrappers := some [(3, mkWrapper dF 10)], nextId := 14 }
    { cached_wrappers :=
        some [(4, mkWrapper dG 14), (3, mkWrapper dF 10)], nextId := 18 }
    [] 3 4 (mkWrapper dF 10) (mkWrapper dG 14)
    rfl rfl rfl (by decide) rfl rfl (by decide) (by decide) rfl rfl

/-- Claim C5: shared-body equivalence.  If `wrap_inline f` returned
wrapper `w`, then in the same thread any callable `g` whose cache key
coincides with `f`'s — a plain callable sharing `f`'s code object, or a
module whose `forward` shares it — receives the identical cached wrapper
object `w`, with the state untouched. -/
theorem wrap_inline_shared_body (f g : WrapInput) (st st2 : DynamoState)
    (w : PyFunction) (hfg : key g = key f)
    (h : wrap_inline f st = (.ok w, st2)) :
    wrap_inline g st2 = (.ok w, st2) :=
  wrap_inline_rehit f g st st2 w hfg h

/-- Witness for C5: two module instances sharing `forward` code identity
9: wrapping the second returns the first one's cached wrapper. -/
theorem wrap_inline_shared_body_witness :
    wrap_inline sampleModB sampleModSt2 =
      (.ok (mkWrapper sampleModA 20), sampleModSt2) :=
  wrap_inline_shared_body sampleModA sampleModB
    { cached_wrappers := some [], nextId := 20 } sampleModSt2
    (mkWrapper sampleModA 20) rfl rfl

/-- Claim C7: for an input that is not invocable and exposes no
`forward` method, `wrap_inline` raises immediately — the model's
`AttributeError "__code__"`, the spec's InvalidCallable — before any
wrapper is constructed, with the thread state (cache and allocation
counter) left exactly unchanged. -/
theorem wrap_inline_invalid_callable (objId : Nat) (st : DynamoState)
    (cache : List (Nat × PyFunction))
    (hc : st.cached_wrappers = some cache) :
    wrap_inline (.plain objId) st =
      (.error (.attributeError "__code__"), st) :=
  wrap_inline_no_code _ _ _ hc rfl

/-- Witness for C7: a non-callable object in a thread with an
initialized empty cache. -/
theorem wrap_inline_invalid_callable_witness :
    wrap_inline (.plain 0) { cached_wrappers := some [], nextId := 0 } =
      (.error (.attributeError "__code__"),
       { cached_wrappers := some [], nextId := 0 }) :=
  wrap_inline_invalid_callable 0 _ [] rfl

theorem PyVal.isNone_eq_false {v : PyVal} (h : v ≠ PyVal.none) :
    v.isNone = false := by
  cases v
  · exact absurd rfl h
  all_goals rfl

/-- Claim C6, counterexample: a backward callback returning a Python
`list` — a sequence — does not have its result passed through unchanged:
`type(grads) is not tuple` holds for a list, so `call_backward` wraps the
whole list in a one-element tuple. -/
theorem call_backward_list_wrapped :
    call_backward (fun _ _ => PyVal.list [PyVal.int 1]) PyVal.none [] =
      PyVal.tuple [PyVal.list [PyVal.int 1]] ∧
    PyVal.tuple [PyVal.list [PyVal.int 1]] ≠ PyVal.list [PyVal.int 1] :=
  ⟨rfl, fun hcontra => PyVal.noConfusion hcontra⟩

/-- Claim C6 (amended): `call_backward bh saved args` calls `bh` with a
`FakeContext` carrying `saved` and returns its result unchanged exactly
when that result is a tuple; every other result — a single non-sequence
value, but also any non-tuple sequence such as a list — is wrapped into
a one-element tuple. -/
theorem call_backward_normalizes
    (backward_fn : FakeContext → List PyVal → PyVal)
    (saved_tensors : PyVal) (args : List PyVal) :
    (∀ vs, backward_fn ⟨saved_tensors⟩ args = PyVal.tuple vs →
      call_backward backward_fn saved_tensors args = PyVal.tuple vs) ∧
    ((∀ vs, backward_fn ⟨saved_tensors⟩ args ≠ PyVal.tuple vs) →
      call_backward backward_fn saved_tensors args =
        PyVal.tuple [backward_fn ⟨saved_tensors⟩ args]) := by
  constructor
  · intro vs hv
    unfold call_backward
    rw [hv]
  · intro hnt
    unfold call_backward
    cases hg : backward_fn ⟨saved_tensors⟩ args <;>
      first
        | exact absurd hg (hnt _)
        | rfl

/-- Witness for C6's amended theorem: a single non-tuple result `5` is
normalized to the one-element tuple `(5,)`. -/
theorem call_backward_normalizes_witness :
    call_backward (fun _ _ => PyVal.int 5) PyVal.none [] =
      PyVal.tuple [PyVal.int 5] :=
  (call_backward_normalizes (fun _ _ => PyVal.int 5) PyVal.none []).2
    (fun _ h => PyVal.noConfusion h)

/-- Claim C8: hook default-propagation.  With a non-empty argument list
`a1 :: rest`, `call_hook` returns `a1` when the hook's result is `None`
(the empty/absent result), and the hook's own result otherwise; no error
is possible. -/
theorem call_hook_default_propagation (hook : List PyVal → PyVal)
    (a1 : PyVal) (rest : List PyVal) :
    (hook (a1 :: rest) = PyVal.none →
      call_hook hook (a1 :: rest) = .ok a1) ∧
    (hook (a1 :: rest) ≠ PyVal.none →
      call_hook hook (a1 :: rest) = .ok (hook (a1 :: rest))) := by
  constructor
  · intro hn
    unfold call_hook
    rw [hn]
    rfl
  · intro hn
    unfold call_hook
    cases hg : hook (a1 :: rest) <;>
      first
        | exact absurd hg hn
        | rfl

/-- Witness for C8: a hook returning `None` propagates the first
argument. -/
theorem call_hook_default_propagation_witness :
    call_hook (fun _ => PyVal.none) [PyVal.int 10, PyVal.int 20] =
      .ok (PyVal.int 10) :=
  (call_hook_default_propagation (fun _ => PyVal.none) (PyVal.int 10)
    [PyVal.int 20]).1 rfl

/-- Claim C10: implicit precondition of `call_hook`.  Called with no
positional arguments after the hook, a `None` hook result sends the code
to `args[0]` on the empty tuple, which raises `IndexError` instead of
returning a substituted value. -/
theorem call_hook_no_args_index_error (hook : List PyVal → PyVal)
    (hn : hook [] = PyVal.none) :
    call_hook hook [] = .error .indexError := by
  unfold call_hook
  rw [hn]
  rfl

/-- Witness for C10: the constant-`None` hook with no further
arguments. -/
theorem call_hook_no_args_index_error_witness :
    call_hook (fun _ => PyVal.none) [] = .error .indexError :=
  call_hook_no_args_index_error (fun _ => PyVal.none) rfl

/-- Claim C9: module-hook chaining.  With the module and the hook list
resolved on the backward state, the loop processes the hooks in list
order, each exactly once: an empty list returns the incoming result; a
list `h :: t` behaves like the loop on `t` restarted from the result
threaded through `h` (replaced when `h`'s return value is non-`None`,
kept otherwise) — stated against a second backward state holding the
tail, each hook receiving `(module, current result, *args)`.  In
particular with hooks `[h1, h2]`, `h1` returning `None` and `h2`
returning non-`None` `R2` gives `R2`, and both returning `None` leaves
the original result unchanged. -/
theorem call_module_hooks_threading (i1 i2 : PyVal) (result : PyVal)
    (args : List PyVal) (bw bw2 : BackwardState)
    (hooks_name module_name hn2 mn2 : String) (module : PyVal)
    (hooks : List ModuleHook)
    (hm : getattrBW bw module_name = .ok (.val module))
    (hh : getattrBW bw hooks_name = .ok (.hooks hooks)) :
    (hooks = [] →
      call_module_hooks_from_backward_state i1 result args bw
        hooks_name module_name = .ok result) ∧
    (∀ h t, hooks = h :: t →
      getattrBW bw2 mn2 = .ok (.val module) →
      getattrBW bw2 hn2 = .ok (.hooks t) →
      call_module_hooks_from_backward_state i1 result args bw
          hooks_name module_name =
        call_module_hooks_from_backward_state i2
          (moduleHookStep module args result h) args bw2 hn2 mn2) ∧
    (∀ h1 h2, hooks = [h1, h2] → h1 module result args = PyVal.none →
      h2 module result args ≠ PyVal.none →
      call_module_hooks_from_backward_state i1 result args bw
        hooks_name module_name = .ok (h2 module result args)) ∧
    (∀ h1 h2, hooks = [h1, h2] → h1 module result args = PyVal.none →
      h2 module result args = PyVal.none →
      call_module_hooks_from_backward_state i1 result args bw
        hooks_name module_name = .ok result) := by
  have hcall : call_module_hooks_from_backward_state i1 result args bw
      hooks_name module_name =
        .ok (hooks.foldl (moduleHookStep module args) result) := by
    unfold call_module_hooks_from_backward_state
    rw [hm]
    dsimp only
    rw [hh]
  refine ⟨?_, ?_, ?_, ?_⟩
  · intro he
    rw [hcall, he]
    rfl
  · intro h t he hm2 hh2
    have hcall2 : call_module_hooks_from_backward_state i2
        (moduleHookStep module args result h) args bw2 hn2 mn2 =
          .ok (t.foldl (moduleHookStep module args)
            (moduleHookStep module args result h)) := by
      unfold call_module_hooks_from_backward_state
      rw [hm2]
      dsimp only
      rw [hh2]
    rw [hcall, he, hcall2, List.foldl_cons]
  · intro h1 h2 he hr1 hr2
    rw [hcall, he]
    simp only [List.foldl_cons, List.foldl_nil, moduleHookStep, hr1,
      PyVal.isNone, if_true]
    rw [if_neg]
    simp only [PyVal.isNone_eq_false hr2, Bool.false_eq_true,
      not_false_iff]
  · intro h1 h2 he hr1 hr2
    rw [hcall, he]
    simp only [List.foldl_cons, List.foldl_nil, moduleHookStep, hr1,
      PyVal.isNone, if_true]
    rw [hr2]
    rfl

/-- Sample hooks for the C9 witness: the first returns `None`, the
second returns `42`. -/
def bwHook1 : ModuleHook := fun _ _ _ => PyVal.none

/-- See `bwHook1`. -/
def bwHook2 : ModuleHook := fun _ _ _ => PyVal.int 42

/-- A backward state holding a module object under `"mod"` and the hook
list `[bwHook1, bwHook2]` under `"hooks"`. -/
def bwSample : BackwardState :=
  [("mod", .val (.obj 99)), ("hooks", .hooks [bwHook1, bwHook2])]

/-- Witness for C9: on `bwSample`, hook 1 returns `None` and hook 2
returns `42`, so the chained result is `42`. -/
theorem call_module_hooks_threading_witness :
    call_module_hooks_from_backward_state PyVal.none (PyVal.int 0) []
      bwSample "hooks" "mod" = .ok (PyVal.int 42) :=
  ((call_module_hooks_threading PyVal.none PyVal.none (PyVal.int 0) []
      bwSample bwSample "hooks" "mod" "hooks" "mod" (.obj 99)
      [bwHook1, bwHook2] rfl rfl).2.2.1)
    bwHook1 bwHook2 rfl rfl (fun hcontra => PyVal.noConfusion hcontra)

end ExternalUtils
